import Mathlib

/-!
Verification development for the `ecs-bluegreen` CDK repository.

The repository contains two variants of `EcsBlueGreenStack`:
* a single-pipeline variant (`lib/ecs-bluegreen-stack.ts`): one CodePipeline
  `GreenDeployPipeline` with stages Source / BuildAndPush / DeployGreen /
  DeployBlue, and a required `imageTag` context value;
* a two-pipeline variant (the stack source embedded in `README.md`):
  `GreenDeployPipeline` (webhook-triggered) and `BlueDeployPipeline`
  (source trigger `GitHubTrigger.NONE`), where the blue build stage reads the
  promoted tag from the SSM parameter `/promote/imageTag`.

Both variants are embedded below as executable Lean definitions, and the
specification's claims are settled as theorems about those definitions.
-/

/-- Identities of the three application target groups created by the stack:
`BlueTG`, `GreenTG`, and `BlueGreenTG` (the shadow target group handed to the
CodeDeploy deployment group as its green target group). -/
inductive TGId
  | blueTG
  | greenTG
  | blueGreenTG
deriving DecidableEq, Repr

/-- Action attached to a listener rule or used as a listener default:
either forward to a target group or answer with a fixed response
(status, content type, body), as `elbv2.ListenerAction.fixedResponse` does. -/
inductive RuleAction
  | forward (tg : TGId)
  | fixedResponse (status : Nat) (contentType : String) (body : String)
deriving DecidableEq, Repr

/-- An IPv4 CIDR block: a 32-bit base address and a mask length. -/
structure Cidr where
  addr : Nat
  maskLen : Nat
deriving DecidableEq, Repr

/-- IPv4 address built from its four dotted-quad octets. -/
def ipOfQuad (a b c d : Nat) : Nat :=
  ((a * 256 + b) * 256 + c) * 256 + d

/-- CIDR membership: the source address matches when it agrees with the base
address on the first `maskLen` bits, i.e. after discarding the low
`32 - maskLen` bits both quotients coincide. -/
def cidrMatches (c : Cidr) (ip : Nat) : Bool :=
  ip / 2 ^ (32 - c.maskLen) == c.addr / 2 ^ (32 - c.maskLen)

/-- Split a character list at every occurrence of `sep` (structural analogue
of splitting the textual CIDR/IP forms at `.` and `/`). -/
def splitOnChar (sep : Char) : List Char → List (List Char)
  | [] => [[]]
  | c :: cs =>
    match splitOnChar sep cs with
    | [] => [[c]]
    | w :: ws => if c == sep then [] :: w :: ws else (c :: w) :: ws

/-- Accumulating decimal parser over characters; fails on any non-digit. -/
def parseNatAux (acc : Nat) : List Char → Option Nat
  | [] => some acc
  | c :: cs => if c.isDigit then parseNatAux (acc * 10 + (c.toNat - 48)) cs else none

/-- Parse a nonempty decimal numeral from characters. -/
def parseNatChars (l : List Char) : Option Nat :=
  match l with
  | [] => none
  | _ => parseNatAux 0 l

/-- Parse one dotted-quad octet (0 ≤ n < 256). -/
def parseOctet (l : List Char) : Option Nat :=
  match parseNatChars l with
  | some n => if n < 256 then some n else none
  | none => none

/-- Parse a dotted-quad IPv4 address from characters. -/
def parseIpv4Chars (l : List Char) : Option Nat :=
  match splitOnChar '.' l with
  | [a, b, c, d] =>
    match parseOctet a, parseOctet b, parseOctet c, parseOctet d with
    | some x, some y, some z, some w => some (ipOfQuad x y z w)
    | _, _, _, _ => none
  | _ => none

/-- Parse a CIDR string such as `"1.2.3.4/32"`; any malformed string yields
`none`. -/
def parseCidr (s : String) : Option Cidr :=
  match splitOnChar '/' s.data with
  | [ipPart, lenPart] =>
    match parseIpv4Chars ipPart, parseNatChars lenPart with
    | some addr, some n => if n ≤ 32 then some { addr := addr, maskLen := n } else none
    | _, _ => none
  | _ => none

/-- A source address is a member of one configured CIDR entry when the entry
parses and matches; a malformed entry matches nothing. -/
def cidrMemberOf (ip : Nat) (cidrStr : String) : Bool :=
  match parseCidr cidrStr with
  | some c => cidrMatches c ip
  | none => false

/-- Membership of a source address in an allow-set of CIDR strings. -/
def sourceIpInAllowSet (ip : Nat) (allowSet : List String) : Bool :=
  allowSet.any (fun s => cidrMemberOf ip s)

/-- A listener rule as created by `addTargetGroups`/`addAction`: a priority,
the `sourceIps` condition (list of CIDR strings), and the action taken. -/
structure ListenerRule where
  priority : Nat
  srcIps : List String
  action : RuleAction
deriving DecidableEq, Repr

/-- A listener: its conditional rules plus the unconditional default action. -/
structure ListenerModel where
  rules : List ListenerRule
  defaultAction : RuleAction
deriving DecidableEq, Repr

/-- Whether a rule's `sourceIps` condition matches a request source; a request
with no recognizable source matches no conditional rule. -/
def matchesRule (r : ListenerRule) (src : Option Nat) : Bool :=
  match src with
  | none => false
  | some ip => sourceIpInAllowSet ip r.srcIps

/-- Insert a rule in front of the first rule of not-smaller priority. -/
def insertByPriority (r : ListenerRule) : List ListenerRule → List ListenerRule
  | [] => [r]
  | x :: xs => if r.priority ≤ x.priority then r :: x :: xs else x :: insertByPriority r xs

/-- Rules sorted in ascending priority order, the order the load balancer
evaluates them in. -/
def sortByPriority (l : List ListenerRule) : List ListenerRule :=
  l.foldr insertByPriority []

/-- Evaluate a listener on a request source: the first matching rule in
ascending priority order wins; otherwise the default action applies. -/
def evalListener (L : ListenerModel) (src : Option Nat) : RuleAction :=
  match (sortByPriority L.rules).find? (fun r => matchesRule r src) with
  | some r => r.action
  | none => L.defaultAction

/-- The fixed deny response configured as the green listener's default action
(`DefaultDeny`): HTTP 403, `text/plain`, body `Access denied`. -/
def denyAction : RuleAction :=
  RuleAction.fixedResponse 403 "text/plain" "Access denied"

/-- The green (staging) listener as both stack variants build it: one rule at
priority 10 with condition `sourceIps([allowedIp])` forwarding to `GreenTG`,
and the fixed 403 deny response as default action. -/
def greenListenerModel (allowedIp : String) : ListenerModel :=
  { rules := [{ priority := 10, srcIps := [allowedIp], action := RuleAction.forward TGId.greenTG }],
    defaultAction := denyAction }

/-- The blue (production) listener: no conditional rules, default rule
forwarding to `BlueTG`. -/
def blueListenerModel : ListenerModel :=
  { rules := [], defaultAction := RuleAction.forward TGId.blueTG }

/-- Name of the ECR repository, `repositoryName` in both stack sources. -/
def repositoryName : String := "sample-container-app"

/-- GitHub owner of the source repository, `gitHubOwner` in both sources. -/
def gitHubOwner : String := "arluxmore"

/-- URI of the ECR repository, `repo.repositoryUri`, rendered as the template
string the single-pipeline stack uses for the blue container image. -/
def repositoryUri (account region : String) : String :=
  account ++ ".dkr.ecr." ++ region ++ ".amazonaws.com/" ++ repositoryName

/-- A container image reference as produced by
`ecs.ContainerImage.fromRegistry`. -/
inductive ContainerImage
  | fromRegistry (uri : String)
deriving DecidableEq, Repr

/-- The fields of a Fargate task definition plus its single container that the
claims are about: compute shape (`cpu`, `memoryLimitMiB`), the container's
port mapping, and its image reference. -/
structure TaskDefModel where
  cpu : Nat
  memoryLimitMiB : Nat
  containerPort : Nat
  image : ContainerImage
deriving DecidableEq, Repr

/-- The compute shape and port of a task definition, with the image erased. -/
structure ComputeShape where
  cpu : Nat
  memoryLimitMiB : Nat
  containerPort : Nat
deriving DecidableEq, Repr

/-- Project a task definition to its compute shape. -/
def shapeOf (td : TaskDefModel) : ComputeShape :=
  { cpu := td.cpu, memoryLimitMiB := td.memoryLimitMiB, containerPort := td.containerPort }

/-- Blue task definition of the single-pipeline variant: shared `taskDef`
shape (cpu 256, memory 512), container `BlueApp` on port 80, and the image
chosen by the `imageTag === 'nginx'` branch of the source. -/
def blueTaskDefSingle (account region imageTag : String) : TaskDefModel :=
  { cpu := 256, memoryLimitMiB := 512, containerPort := 80,
    image :=
      if imageTag == "nginx" then ContainerImage.fromRegistry "nginx:alpine"
      else ContainerImage.fromRegistry (repositoryUri account region ++ ":" ++ imageTag) }

/-- Green task definition of the single-pipeline variant: same shared shape,
container `GreenApp` (named `App`) on port 80, image `nginx:alpine`. -/
def greenTaskDefSingle : TaskDefModel :=
  { cpu := 256, memoryLimitMiB := 512, containerPort := 80,
    image := ContainerImage.fromRegistry "nginx:alpine" }

/-- Blue task definition of the two-pipeline variant: the `cpu`/`memory`/
`containerPort` constants (256/512/80) and image `nginx:alpine`. -/
def blueTaskDefTwo : TaskDefModel :=
  { cpu := 256, memoryLimitMiB := 512, containerPort := 80,
    image := ContainerImage.fromRegistry "nginx:alpine" }

/-- Green task definition of the two-pipeline variant, identical shape. -/
def greenTaskDefTwo : TaskDefModel :=
  { cpu := 256, memoryLimitMiB := 512, containerPort := 80,
    image := ContainerImage.fromRegistry "nginx:alpine" }

/-- Trigger mode of a `GitHubSourceAction` (`GitHubTrigger` in CDK). -/
inductive GitHubTrigger
  | webhook
  | poll
  | none
deriving DecidableEq, Repr

/-- When the `trigger` property is omitted, `GitHubSourceAction` defaults to
`GitHubTrigger.WEBHOOK`: the action starts its pipeline on every push. -/
def gitHubSourceDefaultTrigger : GitHubTrigger := GitHubTrigger.webhook

/-- Properties of a `GitHubSourceAction` the claims depend on. -/
structure GitHubSourceProps where
  owner : String
  repo : String
  branch : String
  trigger : GitHubTrigger
deriving DecidableEq, Repr

/-- A pipeline action: GitHub source, CodeBuild, direct ECS deploy, or a
CodeDeploy blue/green ECS deploy against a deployment group. -/
inductive PipelineAction
  | gitHubSource (props : GitHubSourceProps)
  | codeBuild (projectId : String)
  | ecsDeploy (serviceId : String)
  | codeDeployEcsDeploy (deploymentGroupId : String)
deriving DecidableEq, Repr

/-- A pipeline stage: its name and its actions. -/
structure PipelineStage where
  stageName : String
  actions : List PipelineAction
deriving DecidableEq, Repr

/-- A CodePipeline: its name and its ordered stages. -/
structure PipelineModel where
  pipelineName : String
  stages : List PipelineStage
deriving DecidableEq, Repr

/-- All GitHub source triggers configured in a pipeline's stages. -/
def pipelineSourceTriggers (p : PipelineModel) : List GitHubTrigger :=
  (p.stages.map (fun st =>
    st.actions.filterMap (fun a =>
      match a with
      | PipelineAction.gitHubSource props => some props.trigger
      | _ => Option.none))).foldr (· ++ ·) []

/-- A pipeline is started by a source-repository push exactly when one of its
GitHub source actions is webhook-triggered. -/
def startsOnPush (p : PipelineModel) : Bool :=
  (pipelineSourceTriggers p).any (fun t => t == GitHubTrigger.webhook)

/-- Whether a pipeline contains a production deployment stage, i.e. a
CodeDeploy blue/green ECS deploy action. -/
def hasProductionDeployStage (p : PipelineModel) : Bool :=
  p.stages.any (fun st =>
    st.actions.any (fun a =>
      match a with
      | PipelineAction.codeDeployEcsDeploy _ => true
      | _ => false))

/-- The single pipeline of `lib/ecs-bluegreen-stack.ts`: `GreenDeployPipeline`
with stages Source (webhook-triggered GitHub source), BuildAndPush,
DeployGreen, and DeployBlue (CodeDeploy against `BlueDG`). -/
def greenPipelineSingle : PipelineModel :=
  { pipelineName := "GreenDeployPipeline",
    stages :=
      [ { stageName := "Source",
          actions := [PipelineAction.gitHubSource
            { owner := gitHubOwner, repo := repositoryName, branch := "main",
              trigger := gitHubSourceDefaultTrigger }] },
        { stageName := "BuildAndPush",
          actions := [PipelineAction.codeBuild "GreenBuildProject"] },
        { stageName := "DeployGreen",
          actions := [PipelineAction.ecsDeploy "GreenService"] },
        { stageName := "DeployBlue",
          actions := [PipelineAction.codeDeployEcsDeploy "BlueDG"] } ] }

/-- The staging pipeline of the two-pipeline variant: webhook-triggered
Source, BuildAndPush, DeployGreen; no production deploy stage. -/
def greenPipelineTwo : PipelineModel :=
  { pipelineName := "GreenDeployPipeline",
    stages :=
      [ { stageName := "Source",
          actions := [PipelineAction.gitHubSource
            { owner := gitHubOwner, repo := repositoryName, branch := "main",
              trigger := gitHubSourceDefaultTrigger }] },
        { stageName := "BuildAndPush",
          actions := [PipelineAction.codeBuild "GreenBuildProject"] },
        { stageName := "DeployGreen",
          actions := [PipelineAction.ecsDeploy "GreenService"] } ] }

/-- The production pipeline of the two-pipeline variant: its GitHub source is
configured with `trigger: codepipeline_actions.GitHubTrigger.NONE`, then
BuildBlue and DeployBlue (CodeDeploy against `BlueDG`). -/
def bluePipelineTwo : PipelineModel :=
  { pipelineName := "BlueDeployPipeline",
    stages :=
      [ { stageName := "Source",
          actions := [PipelineAction.gitHubSource
            { owner := gitHubOwner, repo := repositoryName, branch := "main",
              trigger := GitHubTrigger.none }] },
        { stageName := "BuildBlue",
          actions := [PipelineAction.codeBuild "BlueBuildProject"] },
        { stageName := "DeployBlue",
          actions := [PipelineAction.codeDeployEcsDeploy "BlueDG"] } ] }

/-- The CodeDeploy ECS deployment group `BlueDG` as both variants configure
it: blue target group `BlueTG`, green (shadow) target group `BlueGreenTG`,
the production listener, `ALL_AT_ONCE`, and
`autoRollback: { failedDeployment: true }`. -/
structure DeploymentGroupModel where
  blueTargetGroup : TGId
  greenTargetGroup : TGId
  listenerId : String
  allAtOnce : Bool
  autoRollbackFailedDeployment : Bool
deriving DecidableEq, Repr

/-- The concrete `blueDeploymentGroup` of the sources. -/
def blueDeploymentGroupModel : DeploymentGroupModel :=
  { blueTargetGroup := TGId.blueTG, greenTargetGroup := TGId.blueGreenTG,
    listenerId := "BlueHttpListener", allAtOnce := true,
    autoRollbackFailedDeployment := true }

/-- Resolution of the `allowedIp` context value, from
`this.node.tryGetContext('allowedIp') ?? '0.0.0.0/0'` (identical in both
stack variants): an absent value silently becomes the allow-all CIDR. -/
def resolveAllowedIp (ctx : String → Option String) : String :=
  (ctx "allowedIp").getD "0.0.0.0/0"

/-- The single-pipeline stack model: everything the claims inspect. -/
structure SingleStackModel where
  allowedIp : String
  blueTaskDef : TaskDefModel
  greenTaskDef : TaskDefModel
  blueListener : ListenerModel
  greenListener : ListenerModel
  blueDeploymentGroup : DeploymentGroupModel
  pipeline : PipelineModel
deriving DecidableEq, Repr

/-- Construction of the single-pipeline stack (`lib/ecs-bluegreen-stack.ts`):
resolves the context values, throws
`'image tag required - use nginx for first deploy'` when `imageTag` is
absent, and otherwise assembles the resources.  No validation of `allowedIp`
takes place anywhere in the constructor. -/
def buildStackSingle (ctx : String → Option String) (account region : String) :
    Except String SingleStackModel :=
  let allowedIp := resolveAllowedIp ctx
  match ctx "imageTag" with
  | Option.none => Except.error "image tag required - use nginx for first deploy"
  | some imageTag =>
    Except.ok
      { allowedIp := allowedIp,
        blueTaskDef := blueTaskDefSingle account region imageTag,
        greenTaskDef := greenTaskDefSingle,
        blueListener := blueListenerModel,
        greenListener := greenListenerModel allowedIp,
        blueDeploymentGroup := blueDeploymentGroupModel,
        pipeline := greenPipelineSingle }

/-- The two-pipeline stack model. -/
structure TwoStackModel where
  allowedIp : String
  blueTaskDef : TaskDefModel
  greenTaskDef : TaskDefModel
  blueListener : ListenerModel
  greenListener : ListenerModel
  blueDeploymentGroup : DeploymentGroupModel
  greenPipeline : PipelineModel
  bluePipeline : PipelineModel
deriving DecidableEq, Repr

/-- Construction of the two-pipeline stack (the source embedded in
`README.md`): it is total — the constructor contains no `throw` at all, so
every context, including one with no or a malformed `allowedIp`, yields a
stack. -/
def buildStackTwo (ctx : String → Option String) (_account _region : String) :
    TwoStackModel :=
  let allowedIp := resolveAllowedIp ctx
  { allowedIp := allowedIp,
    blueTaskDef := blueTaskDefTwo,
    greenTaskDef := greenTaskDefTwo,
    blueListener := blueListenerModel,
    greenListener := greenListenerModel allowedIp,
    blueDeploymentGroup := blueDeploymentGroupModel,
    greenPipeline := greenPipelineTwo,
    bluePipeline := bluePipelineTwo }

/-- The image tag computed by the green build's `pre_build` phase:
`IMAGE_TAG=$(echo $CODEBUILD_RESOLVED_SOURCE_VERSION | cut -c1-7)` (the
single-pipeline variant's `${CODEBUILD_RESOLVED_SOURCE_VERSION:0:7}` is the
same operation): the first seven characters of the commit hash. -/
def imageTagOf (rev : String) : String :=
  ⟨rev.data.take 7⟩

/-- SSM parameter name holding the promotion record, from
`aws ssm get-parameter --name /promote/imageTag`. -/
def promotionParameterName : String := "/promote/imageTag"

/-- Docker commands issued by the build phases of the two build projects. -/
inductive DockerCommand
  | pull (image : String)
  | push (image : String)
  | buildImage (image : String)
deriving DecidableEq, Repr

/-- Whether a docker command pushes to the registry. -/
def isPushCommand : DockerCommand → Bool
  | DockerCommand.push _ => true
  | _ => false

/-- Build-phase commands of `greenBuildProject`:
`docker build -t $REPOSITORY_URI:$IMAGE_TAG .` then
`docker push $REPOSITORY_URI:$IMAGE_TAG`. -/
def greenBuildCommands (repoUri tag : String) : List DockerCommand :=
  [ DockerCommand.buildImage (repoUri ++ ":" ++ tag),
    DockerCommand.push (repoUri ++ ":" ++ tag) ]

/-- Build-phase commands of `blueBuildProject`: only
`docker pull $REPOSITORY_URI:$IMAGE_TAG` — the source comments
`skip push, reuse image`. -/
def blueBuildCommands (repoUri tag : String) : List DockerCommand :=
  [ DockerCommand.pull (repoUri ++ ":" ++ tag) ]

/-- Effect of one docker command on the registry (the list of image
references present in the artifact store): a pull of an absent image fails
(`none`), a push adds the image, a local build changes nothing remotely. -/
def runDockerCommand (registry : List String) : DockerCommand → Option (List String)
  | DockerCommand.pull img => if registry.contains img then some registry else Option.none
  | DockerCommand.push img => some (img :: registry)
  | DockerCommand.buildImage _ => some registry

/-- Run a command list left to right, stopping at the first failure. -/
def runDockerCommands (registry : List String) : List DockerCommand → Option (List String)
  | [] => some registry
  | c :: cs =>
    match runDockerCommand registry c with
    | some reg2 => runDockerCommands reg2 cs
    | Option.none => Option.none

/-- Failure of the blue Building stage.  Both causes leave no artifact to
deploy: the SSM promotion parameter was never written (the
`aws ssm get-parameter` command exits nonzero and fails the `pre_build`
phase), or the promoted tag names an image absent from the registry (the
`docker pull` fails).  This is the spec's `ArtifactNotFoundError` class. -/
inductive BlueBuildError
  | artifactNotFound (detail : String)
deriving DecidableEq, Repr

/-- The `taskdef.json` descriptor rendered by the blue build's `post_build`
phase, at the granularity of its fields. -/
structure TaskdefDescriptor where
  family : String
  image : String
  memory : Nat
  cpu : Nat
  containerName : String
  containerPort : Nat
deriving DecidableEq, Repr

/-- Render `taskdef.json` for the promoted tag: container `web`, image
`$REPOSITORY_URI:$IMAGE_TAG`, memory/cpu/port from the stack constants. -/
def renderBlueTaskdef (family repoUri tag : String) : TaskdefDescriptor :=
  { family := family, image := repoUri ++ ":" ++ tag, memory := 512, cpu := 256,
    containerName := "web", containerPort := 80 }

/-- The `appspec.yaml` descriptor rendered by the blue build. -/
structure AppspecDescriptor where
  containerName : String
  containerPort : Nat
deriving DecidableEq, Repr

/-- Render `appspec.yaml`: container `web`, port 80. -/
def renderBlueAppspec : AppspecDescriptor :=
  { containerName := "web", containerPort := 80 }

/-- The blue Building stage: `pre_build` reads the promotion record from SSM
(failing when it was never written), `build` pulls the promoted image, and
`post_build` renders the deployment descriptors.  Returns the resolved tag,
the descriptors, and the registry contents after the stage. -/
def blueBuildStage (ssm : String → Option String) (registry : List String)
    (family repoUri : String) :
    Except BlueBuildError (String × TaskdefDescriptor × AppspecDescriptor × List String) :=
  match ssm promotionParameterName with
  | Option.none =>
    Except.error (BlueBuildError.artifactNotFound
      "ssm get-parameter /promote/imageTag: ParameterNotFound")
  | some tag =>
    match runDockerCommands registry (blueBuildCommands repoUri tag) with
    | Option.none => Except.error (BlueBuildError.artifactNotFound (repoUri ++ ":" ++ tag))
    | some reg2 => Except.ok (tag, renderBlueTaskdef family repoUri tag, renderBlueAppspec, reg2)

/-- Observable state of the production environment: which target group the
production listener's default rule forwards to, and the image deployed on the
live task set. -/
structure ProdEnvState where
  listenerDefault : TGId
  deployedImage : String
deriving DecidableEq, Repr

/-- Outcome of a production (blue) pipeline run. -/
inductive BlueRunOutcome
  | succeeded
  | failedAtBuild (e : BlueBuildError)
deriving DecidableEq, Repr

/-- One run of `BlueDeployPipeline`: Source fetches the repository (no
effects modelled), BuildBlue executes `blueBuildStage`, and DeployBlue hands
the rendered descriptors to the CodeDeploy traffic shift, which on success
repoints the production listener's default rule to the shadow target group
and runs the promoted image.  A Building failure ends the run with the
registry and the production environment untouched. -/
def runBluePipeline (ssm : String → Option String) (registry : List String)
    (env : ProdEnvState) (account region : String) :
    BlueRunOutcome × List String × ProdEnvState :=
  match blueBuildStage ssm registry "BlueTaskDef" (repositoryUri account region) with
  | Except.error e => (BlueRunOutcome.failedAtBuild e, registry, env)
  | Except.ok (_tag, td, _appspec, reg2) =>
    (BlueRunOutcome.succeeded, reg2,
      { listenerDefault := blueDeploymentGroupModel.greenTargetGroup,
        deployedImage := td.image })

/-- Phase of a production traffic shift, after §4.2 of the design. -/
inductive ShiftPhase
  | idle
  | provisioning
  | healthChecking
  | shifting
  | settled
  | rollingBack
  | failed
deriving DecidableEq, Repr

/-- Observable state during a traffic shift: the current phase, the target
group the production listener's default rule forwards to, and whether the
shadow task set is registered. -/
structure ShiftState where
  phase : ShiftPhase
  listenerDefault : TGId
  shadowTasksRegistered : Bool
deriving DecidableEq, Repr

/-- Events driving a traffic shift.  `failure` covers a health-check timeout,
a task launch failure, and an explicit abort alike. -/
inductive ShiftEvent
  | start
  | tasksLaunched
  | healthy
  | shifted
  | failure
  | rollbackDone
deriving DecidableEq, Repr

/-- Modelled from the spec: the Traffic Shift Controller (§4.2) is executed
by the external CodeDeploy service and is not part of the repository's
source; the repository only configures it through `blueDeploymentGroup`
(blue target group, shadow target group, production listener, and
`autoRollback: { failedDeployment: true }`).  Transitions follow the spec's
state machine `Idle → Provisioning → HealthChecking → Shifting → Settled`
with `RollingBack` reachable from the three in-flight phases on failure;
rollback deregisters the shadow task set and leaves the listener's default
rule untouched, and the run then terminates `failed`.  When the deployment
group disables automatic rollback the failure merely ends the run. -/
def shiftStep (dg : DeploymentGroupModel) (s : ShiftState) (e : ShiftEvent) : ShiftState :=
  match s.phase, e with
  | ShiftPhase.idle, ShiftEvent.start =>
    { s with phase := ShiftPhase.provisioning, shadowTasksRegistered := true }
  | ShiftPhase.provisioning, ShiftEvent.tasksLaunched =>
    { s with phase := ShiftPhase.healthChecking }
  | ShiftPhase.healthChecking, ShiftEvent.healthy =>
    { s with phase := ShiftPhase.shifting }
  | ShiftPhase.shifting, ShiftEvent.shifted =>
    { s with phase := ShiftPhase.settled, listenerDefault := dg.greenTargetGroup }
  | ShiftPhase.provisioning, ShiftEvent.failure =>
    if dg.autoRollbackFailedDeployment then
      { s with phase := ShiftPhase.rollingBack, shadowTasksRegistered := false }
    else { s with phase := ShiftPhase.failed }
  | ShiftPhase.healthChecking, ShiftEvent.failure =>
    if dg.autoRollbackFailedDeployment then
      { s with phase := ShiftPhase.rollingBack, shadowTasksRegistered := false }
    else { s with phase := ShiftPhase.failed }
  | ShiftPhase.shifting, ShiftEvent.failure =>
    if dg.autoRollbackFailedDeployment then
      { s with phase := ShiftPhase.rollingBack, shadowTasksRegistered := false }
    else { s with phase := ShiftPhase.failed }
  | ShiftPhase.rollingBack, ShiftEvent.rollbackDone =>
    { s with phase := ShiftPhase.failed }
  | _, _ => s

/-- State before any shift: listener default bound to `BlueTG` (the stack's
`DefaultRule`), no shadow task set. -/
def initialShiftState : ShiftState :=
  { phase := ShiftPhase.idle, listenerDefault := TGId.blueTG,
    shadowTasksRegistered := false }

/-- Run a traffic shift event trace under a deployment group's policy. -/
def runShift (dg : DeploymentGroupModel) (events : List ShiftEvent) (s : ShiftState) : ShiftState :=
  events.foldl (shiftStep dg) s

/-- State after the given trace, a deployment failure, and the completion of
the automatic rollback. -/
def afterFailureAndRollback (events : List ShiftEvent) : ShiftState :=
  runShift blueDeploymentGroupModel
    (events ++ [ShiftEvent.failure, ShiftEvent.rollbackDone]) initialShiftState

/-- A phase is in flight when a shift has started but not yet settled. -/
def ShiftPhase.inFlight : ShiftPhase → Bool
  | ShiftPhase.provisioning => true
  | ShiftPhase.healthChecking => true
  | ShiftPhase.shifting => true
  | _ => false

/-- Stage of a pipeline run (§4.3): a linear sequence with the two terminal
outcomes. -/
inductive RunStage
  | pending
  | sourcing
  | building
  | deploying
  | succeeded
  | failed
deriving DecidableEq, Repr

/-- Terminal run stages. -/
def RunStage.isTerminal : RunStage → Bool
  | RunStage.succeeded => true
  | RunStage.failed => true
  | _ => false

/-- Successor stage in the linear sequence. -/
def RunStage.nextStage : RunStage → RunStage
  | RunStage.pending => RunStage.sourcing
  | RunStage.sourcing => RunStage.building
  | RunStage.building => RunStage.deploying
  | RunStage.deploying => RunStage.succeeded
  | s => s

/-- Scheduler state of one pipeline identity: every run ever created (with
its current stage) and the number of triggers queued behind an active run. -/
structure PipelineSchedState where
  runs : List RunStage
  queuedTriggers : Nat
deriving DecidableEq, Repr

/-- Events of the per-pipeline scheduler. -/
inductive SchedEvent
  | trigger
  | advance
  | abort
  | startQueued
deriving DecidableEq, Repr

/-- Whether some run of this pipeline is still in flight (non-terminal). -/
def hasActiveRun (s : PipelineSchedState) : Bool :=
  s.runs.any (fun r => !r.isTerminal)

/-- Advance the first non-terminal run one stage. -/
def advanceFirstActive : List RunStage → List RunStage
  | [] => []
  | r :: rs =>
    if r.isTerminal then r :: advanceFirstActive rs else r.nextStage :: rs

/-- Abort the first non-terminal run (it becomes `failed`). -/
def abortFirstActive : List RunStage → List RunStage
  | [] => []
  | r :: rs =>
    if r.isTerminal then r :: abortFirstActive rs else RunStage.failed :: rs

/-- Modelled from the spec: pipeline-run scheduling is performed by the
external CodePipeline service, not by the repository's source.  Per §5, a
trigger arriving while a run of the same pipeline is non-terminal is queued
(never run concurrently); a queued trigger may start only once no run is
active; `advance` and `abort` act on the single active run. -/
def schedStep (s : PipelineSchedState) : SchedEvent → PipelineSchedState
  | SchedEvent.trigger =>
    if hasActiveRun s then { s with queuedTriggers := s.queuedTriggers + 1 }
    else { s with runs := s.runs ++ [RunStage.pending] }
  | SchedEvent.advance => { s with runs := advanceFirstActive s.runs }
  | SchedEvent.abort => { s with runs := abortFirstActive s.runs }
  | SchedEvent.startQueued =>
    if hasActiveRun s || s.queuedTriggers == 0 then s
    else { runs := s.runs ++ [RunStage.pending], queuedTriggers := s.queuedTriggers - 1 }

/-- Scheduler state reached from the empty history by an event trace. -/
def runSched (events : List SchedEvent) : PipelineSchedState :=
  events.foldl schedStep { runs := [], queuedTriggers := 0 }

/-- Number of in-flight (non-terminal) runs. -/
def inFlightCount (s : PipelineSchedState) : Nat :=
  s.runs.countP (fun r => !r.isTerminal)

/-- Number of runs currently executing their Deploying stage. -/
def deployingCount (s : PipelineSchedState) : Nat :=
  s.runs.countP (fun r => r == RunStage.deploying)

/-- C2: staging routing is allow-list-only with a fixed deny fallback.  For
every configured allow-set entry and every request to the green listener: a
request whose source IP is in the allow-set is forwarded to `GreenTG` (the
target group the green service is attached to), and every other request —
including one with no recognizable source — receives the fixed 403
`text/plain` `Access denied` response.  The boundary holds: an IP exactly
equal to a /32 allow-set entry matches, witnessed generically on `cidrMatches`
and concretely on the spec's own scenario (allow-set `1.2.3.4/32`). -/
theorem green_listener_allowlist_only :
    (∀ (allow : String) (src : Option Nat),
      evalListener (greenListenerModel allow) src =
        match src with
        | some ip =>
          if sourceIpInAllowSet ip [allow] then RuleAction.forward TGId.greenTG else denyAction
        | Option.none => denyAction) ∧
    (∀ ip : Nat, cidrMatches { addr := ip, maskLen := 32 } ip = true) ∧
    evalListener (greenListenerModel "1.2.3.4/32") (some (ipOfQuad 1 2 3 4)) =
      RuleAction.forward TGId.greenTG ∧
    evalListener (greenListenerModel "1.2.3.4/32") (some (ipOfQuad 9 9 9 9)) =
      RuleAction.fixedResponse 403 "text/plain" "Access denied" ∧
    evalListener (greenListenerModel "1.2.3.4/32") Option.none =
      RuleAction.fixedResponse 403 "text/plain" "Access denied" := by
  refine ⟨?_, ?_, by decide, by decide, by decide⟩
  · intro allow src
    cases src with
    | none => rfl
    | some ip =>
      cases h : sourceIpInAllowSet ip [allow] <;>
        simp [evalListener, greenListenerModel, sortByPriority, insertByPriority,
          List.find?, matchesRule, h]
  · intro ip
    simp [cidrMatches]

/-- C6: the staging build's image tag is the deterministic 7-character prefix
of the triggering revision's commit hash: for every revision of length at
least 7 the tag has exactly 7 characters and is a prefix of the revision, and
the spec's example holds (`abc1234d` tags as `abc1234`).  Being a pure
function of the revision, rebuilding the same revision yields the same tag. -/
theorem image_tag_is_seven_char_commit_hash :
    (∀ rev : String, 7 ≤ rev.data.length →
      (imageTagOf rev).length = 7 ∧ (imageTagOf rev).data ++ rev.data.drop 7 = rev.data) ∧
    imageTagOf "abc1234d" = "abc1234" := by
  refine ⟨?_, by decide⟩
  intro rev h
  refine ⟨?_, ?_⟩
  · have hx : (imageTagOf rev).length = (rev.data.take 7).length := rfl
    rw [hx, List.length_take]
    omega
  · exact List.take_append_drop 7 rev.data

/-- Witness for C6 at the spec's example revision `abc1234d`. -/
theorem image_tag_is_seven_char_commit_hash_witness :
    7 ≤ ("abc1234d" : String).data.length ∧
    (imageTagOf "abc1234d").length = 7 ∧
    (imageTagOf "abc1234d").data ++ ("abc1234d" : String).data.drop 7 = ("abc1234d" : String).data :=
  ⟨by decide, image_tag_is_seven_char_commit_hash.1 "abc1234d" (by decide)⟩

/-- C8: compute parity between the environments.  In both stack variants the
blue and the green task definitions declare cpu 256, memory 512 MiB and
container port 80, and overwriting the blue task definition's image with the
green one's makes the two records equal — only the image reference differs. -/
theorem blue_green_compute_parity :
    (∀ account region imageTag : String,
      shapeOf (blueTaskDefSingle account region imageTag) =
        { cpu := 256, memoryLimitMiB := 512, containerPort := 80 } ∧
      shapeOf greenTaskDefSingle = { cpu := 256, memoryLimitMiB := 512, containerPort := 80 } ∧
      { blueTaskDefSingle account region imageTag with image := greenTaskDefSingle.image } =
        greenTaskDefSingle) ∧
    shapeOf blueTaskDefTwo = { cpu := 256, memoryLimitMiB := 512, containerPort := 80 } ∧
    shapeOf greenTaskDefTwo = shapeOf blueTaskDefTwo ∧
    { blueTaskDefTwo with image := greenTaskDefTwo.image } = greenTaskDefTwo :=
  ⟨fun _ _ _ => ⟨rfl, rfl, rfl⟩, rfl, rfl, rfl⟩

/-- C10: the single-pipeline stack rejects construction with the exact error
`image tag required - use nginx for first deploy` whenever no `imageTag`
context value is supplied; with the sentinel value `nginx` the blue container
is initialized from the public `nginx:alpine` image, and with any other tag
from the private ECR repository at that tag. -/
theorem single_stack_image_tag_check :
    (∀ (ctx : String → Option String) (account region : String),
      ctx "imageTag" = Option.none →
      buildStackSingle ctx account region =
        Except.error "image tag required - use nginx for first deploy") ∧
    (∀ (ctx : String → Option String) (account region : String),
      ctx "imageTag" = some "nginx" →
      (buildStackSingle ctx account region).toOption.map (fun s => s.blueTaskDef.image) =
        some (ContainerImage.fromRegistry "nginx:alpine")) ∧
    (∀ (ctx : String → Option String) (account region tag : String),
      ctx "imageTag" = some tag → tag ≠ "nginx" →
      (buildStackSingle ctx account region).toOption.map (fun s => s.blueTaskDef.image) =
        some (ContainerImage.fromRegistry (repositoryUri account region ++ ":" ++ tag))) := by
  refine ⟨?_, ?_, ?_⟩
  · intro ctx account region h
    simp [buildStackSingle, h]
  · intro ctx account region h
    simp [buildStackSingle, blueTaskDefSingle, Except.toOption, h]
  · intro ctx account region tag h1 h2
    simp [buildStackSingle, blueTaskDefSingle, Except.toOption, h1, h2]

/-- Witness for C10: a context that supplies `allowedIp` but omits `imageTag`
is rejected with the exact error; a `nginx` context initializes blue from
`nginx:alpine`; a non-sentinel tag uses the ECR URI at that tag. -/
theorem single_stack_image_tag_check_witness :
    ((fun k => if k == "allowedIp" then some "1.2.3.4/32" else Option.none) "imageTag" =
      (Option.none : Option String)) ∧
    buildStackSingle (fun k => if k == "allowedIp" then some "1.2.3.4/32" else Option.none)
        "111122223333" "us-east-1" =
      Except.error "image tag required - use nginx for first deploy" ∧
    ((fun (_ : String) => some "nginx") "imageTag" = some "nginx") ∧
    ((buildStackSingle (fun _ => some "nginx") "111122223333" "us-east-1").toOption.map
      (fun s => s.blueTaskDef.image) = some (ContainerImage.fromRegistry "nginx:alpine")) ∧
    ((fun (_ : String) => some "abc1234") "imageTag" = some "abc1234") ∧
    ("abc1234" : String) ≠ "nginx" ∧
    (buildStackSingle (fun _ => some "abc1234") "111122223333" "us-east-1").toOption.map
        (fun s => s.blueTaskDef.image) =
      some (ContainerImage.fromRegistry (repositoryUri "111122223333" "us-east-1" ++ ":" ++ "abc1234")) :=
  ⟨by decide,
    single_stack_image_tag_check.1
      (fun k => if k == "allowedIp" then some "1.2.3.4/32" else Option.none)
      "111122223333" "us-east-1" (by decide),
    rfl,
    single_stack_image_tag_check.2.1 (fun _ => some "nginx") "111122223333" "us-east-1" rfl,
    rfl,
    by decide,
    single_stack_image_tag_check.2.2 (fun _ => some "abc1234") "111122223333" "us-east-1"
      "abc1234" rfl (by decide)⟩

/-- C1 evidence: configuration validation does not fail closed on the
allow-set.  With no `allowedIp` context value, both stack constructors
resolve the allow-set to the allow-all CIDR `0.0.0.0/0` and create the green
routing rule with it — every source address is then forwarded to the staging
target group — and an empty-string `allowedIp` is likewise accepted without
any configuration-time error. -/
theorem allowed_ip_defaults_to_allow_all :
    resolveAllowedIp (fun _ => Option.none) = "0.0.0.0/0" ∧
    (buildStackTwo (fun _ => Option.none) "111122223333" "us-east-1").greenListener =
      greenListenerModel "0.0.0.0/0" ∧
    evalListener ((buildStackTwo (fun _ => Option.none) "111122223333" "us-east-1").greenListener)
        (some (ipOfQuad 203 0 113 9)) = RuleAction.forward TGId.greenTG ∧
    evalListener ((buildStackTwo (fun _ => Option.none) "111122223333" "us-east-1").greenListener)
        (some (ipOfQuad 9 9 9 9)) = RuleAction.forward TGId.greenTG ∧
    (buildStackTwo (fun k => if k == "allowedIp" then some "" else Option.none)
        "111122223333" "us-east-1").greenListener = greenListenerModel "" ∧
    (buildStackSingle (fun k => if k == "imageTag" then some "nginx" else Option.none)
        "111122223333" "us-east-1").toOption.map (fun s => s.allowedIp) = some "0.0.0.0/0" := by
  refine ⟨rfl, rfl, by decide, by decide, rfl, rfl⟩

/-- C3 counterexample: in the single-pipeline stack variant the one pipeline
is started by the source-repository webhook (its GitHub source action keeps
the default `WEBHOOK` trigger) and contains the `DeployBlue` production
CodeDeploy stage, so a push event does start a production (blue) deployment. -/
theorem push_starts_blue_deploy_in_single_variant :
    startsOnPush greenPipelineSingle = true ∧
    hasProductionDeployStage greenPipelineSingle = true ∧
    (buildStackSingle (fun k => if k == "imageTag" then some "nginx" else Option.none)
        "111122223333" "us-east-1").toOption.map (fun s => s.pipeline) =
      some greenPipelineSingle :=
  ⟨rfl, rfl, rfl⟩

/-- C3 (amended): in the two-pipeline stack variant trigger separation holds:
the green pipeline is webhook-started and contains no production deploy
stage, while the blue pipeline's source trigger is `GitHubTrigger.NONE` — it
is never started by a push and holds the only production deploy stage, so a
production deploy begins only on an explicit external start request. -/
theorem trigger_separation_two_pipeline_variant :
    startsOnPush greenPipelineTwo = true ∧
    startsOnPush bluePipelineTwo = false ∧
    pipelineSourceTriggers bluePipelineTwo = [GitHubTrigger.none] ∧
    hasProductionDeployStage greenPipelineTwo = false ∧
    hasProductionDeployStage bluePipelineTwo = true ∧
    (buildStackTwo (fun _ => Option.none) "111122223333" "us-east-1").greenPipeline =
      greenPipelineTwo ∧
    (buildStackTwo (fun _ => Option.none) "111122223333" "us-east-1").bluePipeline =
      bluePipelineTwo :=
  ⟨rfl, rfl, rfl, rfl, rfl, rfl, rfl⟩

/-- C5: a production pipeline run started before any promotion write fails in
its Building stage — the `aws ssm get-parameter` call on the never-written
`/promote/imageTag` parameter fails, the spec's `ArtifactNotFoundError` —
and leaves both the registry and the production environment untouched; no
default or empty tag is ever deployed. -/
theorem production_run_before_promotion_fails :
    ∀ (ssm : String → Option String) (registry : List String) (env : ProdEnvState)
      (account region : String),
      ssm promotionParameterName = Option.none →
      runBluePipeline ssm registry env account region =
        (BlueRunOutcome.failedAtBuild (BlueBuildError.artifactNotFound
          "ssm get-parameter /promote/imageTag: ParameterNotFound"), registry, env) := by
  intro ssm registry env account region h
  simp [runBluePipeline, blueBuildStage, h]

/-- Witness for C5: the empty SSM store fails the blue run and changes
neither the registry nor the environment. -/
theorem production_run_before_promotion_fails_witness :
    (fun (_ : String) => (Option.none : Option String)) promotionParameterName = Option.none ∧
    runBluePipeline (fun _ => Option.none) ["nginx:alpine"]
        { listenerDefault := TGId.blueTG, deployedImage := "nginx:alpine" }
        "111122223333" "us-east-1" =
      (BlueRunOutcome.failedAtBuild (BlueBuildError.artifactNotFound
        "ssm get-parameter /promote/imageTag: ParameterNotFound"),
        ["nginx:alpine"],
        { listenerDefault := TGId.blueTG, deployedImage := "nginx:alpine" }) :=
  ⟨rfl, production_run_before_promotion_fails (fun _ => Option.none) ["nginx:alpine"]
    { listenerDefault := TGId.blueTG, deployedImage := "nginx:alpine" }
    "111122223333" "us-east-1" rfl⟩

/-- C7: the production Building stage never pushes — its build phase is the
single `docker pull` of the promoted tag — and a successful production run
returns the registry exactly as it found it while deploying descriptors that
reference the promoted tag's image. -/
theorem production_build_never_mutates_registry :
    (∀ repoUri tag : String,
      (blueBuildCommands repoUri tag).all (fun c => !isPushCommand c) = true) ∧
    (∀ (ssm : String → Option String) (registry : List String) (env : ProdEnvState)
       (account region tag : String),
      ssm promotionParameterName = some tag →
      registry.contains (repositoryUri account region ++ ":" ++ tag) = true →
      runBluePipeline ssm registry env account region =
        (BlueRunOutcome.succeeded, registry,
          { listenerDefault := TGId.blueGreenTG,
            deployedImage := repositoryUri account region ++ ":" ++ tag })) := by
  refine ⟨fun _ _ => rfl, ?_⟩
  intro ssm registry env account region tag h1 h2
  have h3 : repositoryUri account region ++ ":" ++ tag ∈ registry := by
    simpa using h2
  simp [runBluePipeline, blueBuildStage, blueBuildCommands, runDockerCommands,
    runDockerCommand, h1, h3, renderBlueTaskdef, blueDeploymentGroupModel]

/-- Witness for C7: a registry holding exactly the promoted image is returned
unchanged by a successful production run. -/
theorem production_build_never_mutates_registry_witness :
    (fun (_ : String) => some "abc1234") promotionParameterName = some "abc1234" ∧
    ([repositoryUri "111122223333" "us-east-1" ++ ":" ++ "abc1234"].contains
      (repositoryUri "111122223333" "us-east-1" ++ ":" ++ "abc1234") = true) ∧
    runBluePipeline (fun _ => some "abc1234")
        [repositoryUri "111122223333" "us-east-1" ++ ":" ++ "abc1234"]
        { listenerDefault := TGId.blueTG, deployedImage := "nginx:alpine" }
        "111122223333" "us-east-1" =
      (BlueRunOutcome.succeeded,
        [repositoryUri "111122223333" "us-east-1" ++ ":" ++ "abc1234"],
        { listenerDefault := TGId.blueGreenTG,
          deployedImage := repositoryUri "111122223333" "us-east-1" ++ ":" ++ "abc1234" }) :=
  ⟨rfl, by decide,
    production_build_never_mutates_registry.2 (fun _ => some "abc1234")
      [repositoryUri "111122223333" "us-east-1" ++ ":" ++ "abc1234"]
      { listenerDefault := TGId.blueTG, deployedImage := "nginx:alpine" }
      "111122223333" "us-east-1" "abc1234" rfl (by decide)⟩

/-- One step of the traffic shift never moves the listener's default rule off
the previously-live target group except in the single settling transition. -/
lemma shiftStep_preserves_listener (dg : DeploymentGroupModel) (s : ShiftState) (e : ShiftEvent)
    (h : s.phase ≠ ShiftPhase.settled → s.listenerDefault = TGId.blueTG) :
    (shiftStep dg s e).phase ≠ ShiftPhase.settled →
      (shiftStep dg s e).listenerDefault = TGId.blueTG := by
  rcases s with ⟨ph, ld, sh⟩
  cases ph <;> cases e <;> simp_all [shiftStep] <;> split <;> simp_all

/-- Trace version of `shiftStep_preserves_listener`. -/
lemma runShift_preserves_listener (dg : DeploymentGroupModel) (events : List ShiftEvent) :
    ∀ s : ShiftState,
      (s.phase ≠ ShiftPhase.settled → s.listenerDefault = TGId.blueTG) →
      (runShift dg events s).phase ≠ ShiftPhase.settled →
        (runShift dg events s).listenerDefault = TGId.blueTG := by
  induction events with
  | nil => intro s h; exact h
  | cons e es ih =>
    intro s h
    exact ih (shiftStep dg s e) (shiftStep_preserves_listener dg s e h)

/-- C4: rollback atomicity of the production traffic shift.  The deployment
group enables automatic rollback on failed deployments, and whenever a
deployment run is in flight (Provisioning, HealthChecking or Shifting) and a
failure occurs — health-check timeout, task launch failure or explicit abort
alike — the rollback deregisters the shadow task set, leaves the listener's
default rule bound to the previously-live target group exactly as it started,
and the run terminates `failed`. -/
theorem blue_deploy_rollback_preserves_live :
    blueDeploymentGroupModel.autoRollbackFailedDeployment = true ∧
    (∀ events : List ShiftEvent,
      (runShift blueDeploymentGroupModel events initialShiftState).phase.inFlight = true →
      (afterFailureAndRollback events).phase = ShiftPhase.failed ∧
      (afterFailureAndRollback events).shadowTasksRegistered = false ∧
      (afterFailureAndRollback events).listenerDefault = initialShiftState.listenerDefault) := by
  refine ⟨rfl, ?_⟩
  intro events h
  have hld : (runShift blueDeploymentGroupModel events initialShiftState).listenerDefault =
      TGId.blueTG := by
    refine runShift_preserves_listener _ _ _ (fun _ => rfl) ?_
    intro hset
    rw [hset] at h
    simp [ShiftPhase.inFlight] at h
  have happ : afterFailureAndRollback events =
      shiftStep blueDeploymentGroupModel
        (shiftStep blueDeploymentGroupModel
          (runShift blueDeploymentGroupModel events initialShiftState) ShiftEvent.failure)
        ShiftEvent.rollbackDone := by
    simp [afterFailureAndRollback, runShift, List.foldl_append]
  rw [happ]
  rcases hrun : runShift blueDeploymentGroupModel events initialShiftState with ⟨ph, ld, sh⟩
  rw [hrun] at h hld
  cases ph <;>
    simp_all [ShiftPhase.inFlight, shiftStep, blueDeploymentGroupModel, initialShiftState]

/-- Witness for C4: a failure while the shift is provisioning rolls back to
the initial listener binding and ends the run `failed`. -/
theorem blue_deploy_rollback_preserves_live_witness :
    (runShift blueDeploymentGroupModel [ShiftEvent.start, ShiftEvent.tasksLaunched]
      initialShiftState).phase.inFlight = true ∧
    (afterFailureAndRollback [ShiftEvent.start, ShiftEvent.tasksLaunched]).phase =
      ShiftPhase.failed ∧
    (afterFailureAndRollback [ShiftEvent.start, ShiftEvent.tasksLaunched]).shadowTasksRegistered =
      false ∧
    (afterFailureAndRollback [ShiftEvent.start, ShiftEvent.tasksLaunched]).listenerDefault =
      initialShiftState.listenerDefault :=
  ⟨by decide, blue_deploy_rollback_preserves_live.2
    [ShiftEvent.start, ShiftEvent.tasksLaunched] (by decide)⟩

/-- Advancing the first active run never increases the number of in-flight
runs. -/
lemma countP_advanceFirstActive_le (l : List RunStage) :
    (advanceFirstActive l).countP (fun r => !r.isTerminal) ≤
      l.countP (fun r => !r.isTerminal) := by
  induction l with
  | nil => simp [advanceFirstActive]
  | cons r rs ih =>
    cases h : r.isTerminal with
    | true => simpa [advanceFirstActive, h, List.countP_cons] using ih
    | false =>
      rw [advanceFirstActive, if_neg (by simp [h])]
      simp only [List.countP_cons]
      cases hnext : r.nextStage.isTerminal <;> simp [h, hnext]

/-- Aborting the first active run never increases the number of in-flight
runs. -/
lemma countP_abortFirstActive_le (l : List RunStage) :
    (abortFirstActive l).countP (fun r => !r.isTerminal) ≤
      l.countP (fun r => !r.isTerminal) := by
  induction l with
  | nil => simp [abortFirstActive]
  | cons r rs ih =>
    cases h : r.isTerminal with
    | true => simpa [abortFirstActive, h, List.countP_cons] using ih
    | false =>
      rw [abortFirstActive, if_neg (by simp [h]), List.countP_cons, List.countP_cons]
      simp [h, RunStage.isTerminal]

/-- With no active run the in-flight count is zero. -/
lemma inFlightCount_eq_zero_of_no_active (s : PipelineSchedState)
    (h : hasActiveRun s = false) : inFlightCount s = 0 := by
  rw [inFlightCount, List.countP_eq_zero]
  intro a ha
  rw [hasActiveRun] at h
  intro hp
  have : s.runs.any (fun r => !r.isTerminal) = true :=
    List.any_eq_true.mpr ⟨a, ha, hp⟩
  rw [h] at this
  exact Bool.false_ne_true this

/-- One scheduler step preserves the mutual-exclusion invariant. -/
lemma schedStep_inFlight_le (s : PipelineSchedState) (e : SchedEvent)
    (h : inFlightCount s ≤ 1) : inFlightCount (schedStep s e) ≤ 1 := by
  cases e with
  | trigger =>
    cases ha : hasActiveRun s with
    | true => simpa [schedStep, ha, inFlightCount] using h
    | false =>
      have h0 : inFlightCount s = 0 := inFlightCount_eq_zero_of_no_active s ha
      rw [inFlightCount] at h0
      have hstep : schedStep s SchedEvent.trigger = { s with runs := s.runs ++ [RunStage.pending] } := by
        simp [schedStep, ha]
      rw [hstep, inFlightCount]
      simp only [List.countP_append, h0]
      decide
  | advance =>
    refine le_trans ?_ h
    simpa [schedStep, inFlightCount] using countP_advanceFirstActive_le s.runs
  | abort =>
    refine le_trans ?_ h
    simpa [schedStep, inFlightCount] using countP_abortFirstActive_le s.runs
  | startQueued =>
    cases ha : hasActiveRun s with
    | true => simpa [schedStep, ha, inFlightCount] using h
    | false =>
      have h0 : inFlightCount s = 0 := inFlightCount_eq_zero_of_no_active s ha
      rw [inFlightCount] at h0
      cases hq : s.queuedTriggers == 0 with
      | true => simpa [schedStep, ha, hq, inFlightCount] using h
      | false =>
        have hstep : schedStep s SchedEvent.startQueued =
            { runs := s.runs ++ [RunStage.pending], queuedTriggers := s.queuedTriggers - 1 } := by
          simp [schedStep, ha, hq]
        rw [hstep, inFlightCount]
        simp only [List.countP_append, h0]
        decide

/-- Trace version: every reachable scheduler state has at most one in-flight
run. -/
lemma foldl_schedStep_inFlight_le (events : List SchedEvent) :
    ∀ s : PipelineSchedState, inFlightCount s ≤ 1 →
      inFlightCount (events.foldl schedStep s) ≤ 1 := by
  induction events with
  | nil => intro s h; exact h
  | cons e es ih =>
    intro s h
    exact ih (schedStep s e) (schedStep_inFlight_le s e h)

/-- Runs in their Deploying stage are in flight, so there are at most as many
of them. -/
lemma countP_deploying_le_nonTerminal (l : List RunStage) :
    l.countP (fun r => r == RunStage.deploying) ≤ l.countP (fun r => !r.isTerminal) := by
  induction l with
  | nil => simp
  | cons r rs ih =>
    simp only [List.countP_cons]
    have hx : (if r == RunStage.deploying then 1 else 0) ≤
        (if !r.isTerminal then 1 else 0) := by
      cases r <;> simp [RunStage.isTerminal]
    omega

/-- C9: pipeline-run mutual exclusion.  Along every event trace of the
per-pipeline scheduler, at most one run is in flight and hence at most one
run is in its Deploying stage; a trigger that arrives while a run is active
only increments the queued-trigger count and starts nothing. -/
theorem at_most_one_run_in_flight :
    (∀ events : List SchedEvent,
      inFlightCount (runSched events) ≤ 1 ∧ deployingCount (runSched events) ≤ 1) ∧
    (∀ s : PipelineSchedState, hasActiveRun s = true →
      schedStep s SchedEvent.trigger = { s with queuedTriggers := s.queuedTriggers + 1 }) := by
  constructor
  · intro events
    have h1 : inFlightCount (runSched events) ≤ 1 :=
      foldl_schedStep_inFlight_le events { runs := [], queuedTriggers := 0 } (by simp [inFlightCount])
    exact ⟨h1, le_trans (countP_deploying_le_nonTerminal _) h1⟩
  · intro s h
    simp [schedStep, h]

/-- Witness for C9: a second trigger while the first run is active is queued,
and a concrete trace keeps both counts at one. -/
theorem at_most_one_run_in_flight_witness :
    (inFlightCount (runSched [SchedEvent.trigger, SchedEvent.trigger, SchedEvent.advance]) ≤ 1 ∧
      deployingCount (runSched [SchedEvent.trigger, SchedEvent.trigger, SchedEvent.advance]) ≤ 1) ∧
    hasActiveRun { runs := [RunStage.pending], queuedTriggers := 0 } = true ∧
    schedStep { runs := [RunStage.pending], queuedTriggers := 0 } SchedEvent.trigger =
      { runs := [RunStage.pending], queuedTriggers := 1 } :=
  ⟨at_most_one_run_in_flight.1 [SchedEvent.trigger, SchedEvent.trigger, SchedEvent.advance],
    by decide,
    at_most_one_run_in_flight.2 { runs := [RunStage.pending], queuedTriggers := 0 } (by decide)⟩
